import Mathlib

/-!
Verification of the among-llms social-deduction subsystem
(vendored under 14-llm-social-deduction/_base/external/among-llms).

The Python modules relevant here are shallowly embedded as pure Lean
functions:

* allms/core/vote.py                 (AgentVoting)
* allms/core/state/state.py          (GameState.can_end_vote, GameState.add_message)
* allms/core/state/manager.py        (GameStateManager.__process_vote_results,
                                      GameStateManager.terminate_agent)
* allms/core/chat/message.py         (ChatMessage.edit / ChatMessage.delete)
* allms/core/chat/id.py              (ChatMessageIDGenerator)
* allms/core/llm/parser.py           (LLMResponseParser)

Conventions used throughout:

* Python dicts become insertion-ordered association lists
  (List (Key x Value)); dict update keeps the position of an existing
  key, a fresh key is appended at the end, exactly as CPython does.
* Python sets of strings become Lean Finset String where only
  membership/cardinality matters, and insertion-ordered duplicate-free
  lists where the set only collects elements.
* assert statements and operations that raise become Option/Except
  results; none/.error is an aborted (raising) call.
* Logging, UI callbacks and the wall clock are irrelevant to state
  evolution; timestamps are taken as explicit arguments, log calls are
  dropped.
-/

namespace AllmsSpec

/-! ## Python dict / string primitives -/

/-- CPython dict increment pattern `if k not in d: d[k] = 0; d[k] += 1`
on an insertion-ordered association list. -/
def dict_incr : List (String × Nat) → String → List (String × Nat)
  | [], key => [(key, 1)]
  | (k, n) :: rest, key =>
      if k = key then (k, n + 1) :: rest
      else (k, n) :: dict_incr rest key

/-- Sum of the values of a counter dict (Python sum(d.values()) /
Counter.total()). -/
def dict_total (d : List (String × Nat)) : Nat := (d.map Prod.snd).sum

/-- Python max(d.values()) with the empty dict mapped to 0 (callers in
the source either guard the empty case themselves or return 0 for it). -/
def dict_max_value (d : List (String × Nat)) : Nat :=
  match d.map Prod.snd with
  | [] => 0
  | x :: xs => xs.foldl max x

/-- Python str.strip() (whitespace on both ends) on a char list. -/
def strip_chars (cs : List Char) : List Char :=
  ((cs.dropWhile Char.isWhitespace).reverse.dropWhile Char.isWhitespace).reverse

/-- Python str.strip() for strings. -/
def py_strip (s : String) : String := ⟨strip_chars s.data⟩

/-- Splits a char list at newline characters, keeping empty segments
(helper for Python str.splitlines; only "\n" line breaks are modelled,
which covers every response the claims are about). -/
def split_newlines : List Char → List (List Char)
  | [] => [[]]
  | c :: cs =>
      let rest := split_newlines cs
      if c = '\n' then [] :: rest
      else
        match rest with
        | [] => [[c]]
        | r :: rs => (c :: r) :: rs

/-- Python str.splitlines(): like splitting at newlines except that a
trailing line break produces no final empty line. -/
def py_splitlines (s : String) : List String :=
  let parts := (split_newlines s.data).map (fun l => (⟨l⟩ : String))
  if parts.getLast? = some "" then parts.dropLast else parts

/-- Python line.split(":")[0]: the text before the first colon (the
whole string when there is no colon). -/
def py_split_head (s : String) : String :=
  ⟨s.data.takeWhile (fun c => c != ':')⟩

/-- Python line.split(":", maxsplit=1) under tuple unpacking
key, contents = ...: some (before, after) when a colon is present,
none (a raised ValueError) when there is none. -/
def py_split_once (s : String) : Option (String × String) :=
  if s.data.contains ':' then
    some (⟨s.data.takeWhile (fun c => c != ':')⟩,
          ⟨(s.data.dropWhile (fun c => c != ':')).tail⟩)
  else none

/-- Python s.lstrip('"'). -/
def py_lstrip_quote (s : String) : String :=
  ⟨s.data.dropWhile (fun c => c == '"')⟩

/-- Python s.rstrip('"'). -/
def py_rstrip_quote (s : String) : String :=
  ⟨(s.data.reverse.dropWhile (fun c => c == '"')).reverse⟩

/-- Python s.lower() (the source only lowercases ASCII key/value text). -/
def py_lower (s : String) : String := ⟨s.data.map Char.toLower⟩

/-- Python s.upper() (used on agent ids, which are ASCII). -/
def py_upper (s : String) : String := ⟨s.data.map Char.toUpper⟩

/-- Decimal value of a char list (value of Python int(s) on a digit
string, and the decoder used to show Nat.repr is injective). -/
def dec_val (cs : List Char) : Nat :=
  cs.foldl (fun acc c => 10 * acc + (c.toNat - '0'.toNat)) 0

/-- The decimal digits Python int() accepts, modelled over ASCII 0-9.
(int() also accepts every other Unicode Numeric_Type=Decimal script
digit; those behave exactly like ASCII digits — isnumeric-true and
int()-accepted — and none occurs in this development.) -/
def py_char_decimal (c : Char) : Bool := c.isDigit

/-- A finite sub-table of the Unicode characters with
Numeric_Type=Digit or Numeric: accepted by Python str.isnumeric() but
rejected by int() (superscripts and vulgar fractions). The full
Unicode table is larger; every listed character behaves like the rest
of its class, and characters outside the two modelled tables are
treated as non-numeric. -/
def py_char_numeric_nondecimal (c : Char) : Bool :=
  (c == '¹') || (c == '²') || (c == '³') ||
  (c == '¼') || (c == '½') || (c == '¾')

/-- Python s.isnumeric(): nonempty and every character numeric
(decimal or non-decimal) over the modelled tables. -/
def py_isnumeric (s : String) : Bool :=
  s.length > 0 &&
    s.data.all (fun c => py_char_decimal c || py_char_numeric_nondecimal c)

/-- Python int(s) as the parser calls it, on a token that already
passed isnumeric: the decimal value when every character is a decimal
digit, otherwise the ValueError int() raises, whose message quotes the
offending content. (The sign/whitespace/underscore handling of int()
is unreachable under the isnumeric guard and not modelled.) -/
def py_int_of_numeric (s : String) : Except String Nat :=
  if !s.data.isEmpty && s.data.all py_char_decimal then .ok (dec_val s.data)
  else .error ("invalid literal for int() with base 10: \x27" ++ s ++ "\x27")

/-! ## allms/core/vote.py — AgentVoting -/

/-- Embedding of the AgentVoting dataclass (leading underscores of the
field names dropped). vote_map maps a voter to the agent they voted
for, result_map maps an agent to the number of votes received. -/
structure AgentVoting where
  vote_map : List (String × String)
  result_map : List (String × Nat)
  vote_has_started : Bool
  started_by : Option String
deriving DecidableEq

namespace AgentVoting

/-- The dataclass default state (empty dicts, vote not started). -/
def init : AgentVoting := ⟨[], [], false, none⟩

/-- AgentVoting.voting_has_started: returns the Python tuple
(still a pair here — the truthiness slip it causes lives in
GameState.can_end_vote, see py_tuple_truthy below). -/
def voting_has_started (v : AgentVoting) : Bool × Option String :=
  (v.vote_has_started, v.started_by)

/-- AgentVoting.total_voters. -/
def total_voters (v : AgentVoting) : Nat := v.vote_map.length

/-- AgentVoting.start_vote: opens the round and clears both maps when
no round is open; otherwise only logs a warning (no state change). -/
def start_vote (v : AgentVoting) (startedBy : String) : AgentVoting :=
  if !v.vote_has_started then
    { vote_map := []
      result_map := []
      vote_has_started := true
      started_by := some startedBy }
  else v

/-- AgentVoting.can_vote: a voter may vote iff they have not voted in
this round and the round is open. -/
def can_vote (v : AgentVoting) (by_agent : String) : Bool :=
  if (v.vote_map.lookup by_agent).isSome then false
  else v.vote_has_started

/-- AgentVoting.vote: records the vote and bumps the tally; returns the
updated state together with the Python return value. -/
def vote (v : AgentVoting) (by_agent for_agent : String) : AgentVoting × Bool :=
  if v.can_vote by_agent then
    ({ v with
        vote_map := v.vote_map ++ [(by_agent, for_agent)]
        result_map := dict_incr v.result_map for_agent }, true)
  else (v, false)

/-- AgentVoting.get_max_votes_received. -/
def get_max_votes_received (v : AgentVoting) : Nat := dict_max_value v.result_map

/-- AgentVoting.get_voted_for_who. -/
def get_voted_for_who (v : AgentVoting) (by_agent : String) : Option String :=
  if v.vote_has_started then v.vote_map.lookup by_agent else none

/-- AgentVoting.get_who_voted_and_for_whom: the vote map as a list of
(who_voted, voted_for_whom) pairs. -/
def get_who_voted_and_for_whom (v : AgentVoting) : List (String × String) :=
  v.vote_map

/-- AgentVoting.end_vote: asserts that a round is open (none = the
assert fires); closes the round and returns Counter(result_map). -/
def end_vote (v : AgentVoting) : Option (AgentVoting × List (String × Nat)) :=
  if v.vote_has_started then
    some ({ v with vote_has_started := false }, v.result_map)
  else none

/-- AgentVoting.reset, translated exactly as written in the source: it
clears vote_map and the started flags but does NOT touch result_map. -/
def reset (v : AgentVoting) : AgentVoting :=
  { v with
      vote_map := []
      vote_has_started := false
      started_by := none }

/-- The left side of the spec invariant sum(result_map.values()). -/
def sum_results (v : AgentVoting) : Nat := dict_total v.result_map

end AgentVoting

/-! ## allms/core/state/state.py — GameState.can_end_vote -/

/-- Truthiness of the Python value GameState.can_end_vote tests with
if not self._voting.voting_has_started(): the method returns a 2-tuple,
and a nonempty tuple is always truthy in Python, whatever it contains. -/
def py_tuple_truthy (_t : Bool × Option String) : Bool := true

/-- Embedding of GameState.can_end_vote. Besides the voting object the
function reads len(self._remaining_agent_ids), passed here as
n_remaining_agents. none models the assert n_voters <= n_agents
failing; some b is the returned value. The opening guard is translated
exactly as the source has it (testing the truthiness of the tuple), so
it can never take the early-return-False branch. -/
def can_end_vote (voting : AgentVoting) (n_remaining_agents : Nat) : Option Bool :=
  if !py_tuple_truthy voting.voting_has_started then some false
  else
    let n_voters := voting.total_voters
    if n_voters > n_remaining_agents then none
    else if n_voters = n_remaining_agents then some true
    else if voting.get_max_votes_received > n_remaining_agents / 2 then some true
    else some false

/-- GameState.start_voting: returns (state-after, python-return-value);
the vote-duration timer it also sets is not part of any claim and is
omitted. -/
def start_voting (voting : AgentVoting) (started_by : String) : AgentVoting × Bool :=
  if (voting.voting_has_started).1 then (voting, false)
  else (voting.start_vote started_by, true)

/-! ## allms/core/state/manager.py — __process_vote_results -/

/-- Outcome of GameStateManager.__process_vote_results: some agent to
kick, or none when the vote is rejected. results is Counter(result_map)
(insertion-ordered, distinct keys, positive counts when produced by the
game); n_remaining is len(self.get_all_remaining_agents_ids()). The
human-readable conclusion string and the did-not-vote listing do not
influence the outcome and are elided. min_count is
math.ceil(0.5 * n_remaining), which for a Nat n is (n + 1) / 2. -/
def process_vote_results (results : List (String × Nat)) (n_remaining : Nat) :
    Option String :=
  let min_count := (n_remaining + 1) / 2
  let total_votes := dict_total results
  if total_votes = 0 then none
  else if total_votes < min_count then none
  else
    let max_votes := dict_max_value results
    let kick_agents := (results.filter (fun p => p.2 = max_votes)).map Prod.fst
    if kick_agents.length > 1 then none
    else kick_agents.head?

/-! ## allms/core/state/manager.py — terminate_agent -/

/-- Which LLM tasks GameStateManager.terminate_agent stops: a single
agent's chat loop (stop_llms(agent_id)) or every loop (stop_llms()). -/
inductive StopTarget where
  | one (agent_id : String)
  | all
deriving DecidableEq

/-- The externally visible outcome of a terminate_agent call. -/
structure TerminateResult where
  game_ended : Bool
  game_won : Bool
  remaining : Finset String
  stopped : StopTarget
  /-- The agents whose chat logs received the "agent_id was NOT the
  HUMAN" announcement; none in the end-of-game branch where no such
  announcement is made. -/
  not_human_announced_to : Option (Finset String)
deriving DecidableEq

/-- Embedding of GameStateManager.terminate_agent. Inputs are the state
it reads: the full agent set (keys of _all_agents), the human's
assigned id, _remaining_agent_ids, the incoming game_ended/game_won
flags, and the agent being terminated. none models a raised assert:
get_user_assigned_agent_id demands a nonempty assigned id present in
_all_agents, remove_agent demands agent_id in _remaining_agent_ids, and
the not-the-human announcement goes through
get_all_remaining_agents_ids, which demands at least 2 agents left.
Pure UI callbacks, event log lines and logging are elided. -/
def terminate_agent (all_agents : Finset String) (your_id : String)
    (remaining : Finset String) (game_ended game_won : Bool)
    (agent_id : String) : Option TerminateResult :=
  if your_id = "" ∨ your_id ∉ all_agents then none
  else
    let n_remaining := remaining.card
    let won := n_remaining = 3 ∧ agent_id ≠ your_id
    if agent_id ∉ remaining then none
    else
      let remaining' := remaining.erase agent_id
      if agent_id ≠ your_id ∧ ¬won then
        if remaining'.card < 2 then none
        else
          some { game_ended := game_ended
                 game_won := game_won
                 remaining := remaining'
                 stopped := .one agent_id
                 not_human_announced_to := some remaining' }
      else
        some { game_ended := true
               game_won := decide won
               remaining := remaining'
               stopped := .all
               not_human_announced_to := none }

/-! ## allms/core/chat/message.py — ChatMessage -/

/-- Embedding of the ChatMessageEditLog dataclass. -/
structure ChatMessageEditLog where
  timestamp : String
  prev_msg : String
  edited_by_you : Bool
  deleted_by_you : Bool
deriving DecidableEq

/-- Embedding of the ChatMessage dataclass, all fields. -/
structure ChatMessage where
  id : String
  timestamp : String
  msg : String
  sent_by : String
  sent_by_you : Bool
  sent_to : Option String
  thought_process : String
  reply_to_id : Option String
  edited : Bool
  deleted : Bool
  edited_by_you : Bool
  deleted_by_you : Bool
  is_announcement : Bool
  suspect : Option String
  suspect_confidence : Option Int
  suspect_reason : Option String
  history_log : List ChatMessageEditLog
deriving DecidableEq

namespace ChatMessage

/-- ChatMessage.can_edit_or_delete. -/
def can_edit_or_delete (m : ChatMessage) : Bool := !m.deleted

/-- ChatMessage.edit: the current clock reading is passed in as
curr_ts. -/
def edit (m : ChatMessage) (message : String) (editedByYou : Bool)
    (curr_ts : String) : ChatMessage :=
  if !m.can_edit_or_delete then m
  else
    { m with
        msg := message
        edited := true
        edited_by_you := editedByYou
        history_log := m.history_log ++
          [{ timestamp := curr_ts
             prev_msg := m.msg
             edited_by_you := editedByYou
             deleted_by_you := false }] }

/-- ChatMessage.delete: the current clock reading is passed in as
curr_ts. -/
def delete (m : ChatMessage) (deletedByYou : Bool)
    (curr_ts : String) : ChatMessage :=
  if !m.can_edit_or_delete then m
  else
    { m with
        deleted := true
        deleted_by_you := deletedByYou
        msg := "This message has been deleted"
        history_log := m.history_log ++
          [{ timestamp := curr_ts
             prev_msg := m.msg
             edited_by_you := false
             deleted_by_you := deletedByYou }] }

end ChatMessage

/-! ## allms/core/chat/id.py — ChatMessageIDGenerator -/

/-- Embedding of the ChatMessageIDGenerator dataclass (counter state). -/
structure ChatMessageIDGenerator where
  curr : Nat
deriving DecidableEq

/-- ChatMessageIDGenerator.next: returns str(self._id) and increments
the counter. GameStateManager.__create_new_message calls this under
self._msg_id_generator_lock, so every allocation — also those made by
concurrently running agent tasks — is one step of this function on the
shared counter; a trace of n allocations is n sequential steps. -/
def ChatMessageIDGenerator.next (g : ChatMessageIDGenerator) :
    String × ChatMessageIDGenerator :=
  (toString g.curr, ⟨g.curr + 1⟩)

/-- The ids handed out by a trace of n message allocations starting
from generator state g, in allocation order, together with the final
generator state. -/
def generate_ids (g : ChatMessageIDGenerator) :
    Nat → List String × ChatMessageIDGenerator
  | 0 => ([], g)
  | n + 1 =>
      let step := g.next
      let rest := generate_ids step.2 n
      (step.1 :: rest.1, rest.2)

/-! ## allms/core/llm/parser.py — LLMResponseParser -/

/-- The typed values LLMResponseParser.__add_to_result produces: the
stripped string, or its coercion to None/True/False/int. -/
inductive PyValue where
  | pynone
  | pybool (b : Bool)
  | pyint (n : Nat)
  | pystr (s : String)
deriving DecidableEq

/-- The parser_map constant of LLMResponseParser.parse, verbatim:
key in the LLM output to key in the response model. -/
def parser_map : List (String × String) :=
  [("MESSAGE",            "message"),
   ("INTENT",             "intent"),
   ("SEND_TO",            "send_to"),
   ("SUSPECT_ID",         "suspect"),
   ("SUSPECT_CONFIDENCE", "suspect_confidence"),
   ("REASON_FOR_SUSPECT", "suspect_reason"),
   ("START_A_VOTE",       "start_a_vote"),
   ("VOTING_FOR",         "voting_for")]

/-- The value coercion of LLMResponseParser.__add_to_result: strip
whitespace, strip one layer of double quotes, then coerce
none/true/false tokens, and isnumeric tokens through int() — which
raises (.error) on an isnumeric token that is not all decimal digits;
anything non-numeric stays the (case-preserving) stripped string. -/
def coerce_contents (contents : String) : Except String PyValue :=
  let pc := py_rstrip_quote (py_lstrip_quote (py_strip contents))
  let pcl := py_lower pc
  if pcl = "none" then .ok .pynone
  else if pcl = "true" then .ok (.pybool true)
  else if pcl = "false" then .ok (.pybool false)
  else if py_isnumeric pcl then
    match py_int_of_numeric pcl with
    | .error e => .error e
    | .ok n => .ok (.pyint n)
  else .ok (.pystr pc)

/-- Embedding of LLMResponseParser.__add_to_result: the source coerces
first — so int() may raise even for an already-present key — and only
then records the value when the key is not yet present. -/
def add_to_result (key : String) (contents : String)
    (result : List (String × PyValue)) : Except String (List (String × PyValue)) :=
  match coerce_contents contents with
  | .error e => .error e
  | .ok v =>
      .ok (if (result.lookup key).isSome then result else result ++ [(key, v)])

/-- The line loop of LLMResponseParser.parse over already-split lines.
Blank lines are skipped; lines whose text before the first colon is not
a parser_map key are skipped; otherwise the line is split at the first
colon — when the line has no colon the tuple unpacking raises a
ValueError, re-raised by the except-Exception arm (the error text is
the unpack message plus the schema note, and does not quote the line) —
and handed to __add_to_result, whose int() call can itself raise, also
re-raised with the schema note appended (that message does quote the
offending token). The KeyError arm of the source is unreachable,
because the key tested there is the same first-colon segment the loop
already looked up; it is still translated. -/
def parse_lines : List String → List (String × PyValue) →
    Except String (List (String × PyValue))
  | [], result => .ok result
  | l :: rest, result =>
      let line := py_strip l
      if line = "" then parse_lines rest result
      else
        let line_key := py_strip (py_split_head line)
        if (parser_map.lookup line_key).isNone then parse_lines rest result
        else
          match py_split_once line with
          | none =>
              .error ("not enough values to unpack (expected 2, got 1). " ++
                      "Doesn't match the requested output schema")
          | some (k, contents) =>
              let key := py_strip k
              match parser_map.lookup key with
              | none =>
                  .error ("Given key=" ++ key ++ " is not supported. " ++
                          "DOES NOT MATCH THE OUTPUT SCHEMA")
              | some model_key =>
                  -- the except-Exception arm re-raises any error from
                  -- __add_to_result (int()'s ValueError) with the
                  -- schema note appended
                  match add_to_result model_key contents result with
                  | .error e =>
                      .error (e ++ ". Doesn\x27t match the requested output schema")
                  | .ok result' => parse_lines rest result'

/-- LLMResponseParser.parse up to the response dict handed to
LLMResponseModel(**response_dict): splitlines, then the line loop. The
pydantic model construction consumes this dict afterwards and performs
field/allow-list validation that is independent of the line handling
settled here. -/
def parse (response : String) : Except String (List (String × PyValue)) :=
  parse_lines (py_splitlines response) []

/-! ## allms/core/agents.py — Agent -/

/-- Appending to a Python deque with the given maxlen: the oldest entry
is evicted when the bound is exceeded. -/
def deque_append {α : Type} (max_len : Nat) (xs : List α) (x : α) : List α :=
  let ys := xs ++ [x]
  if ys.length > max_len then ys.drop (ys.length - max_len) else ys

/-- AppConfiguration.max_lookback_messages (config.py). -/
def max_lookback_messages : Nat := 30

/-- Adding a message id to one entry of a dm dict
(dict[str, set[str]]); sets are modelled as insertion-ordered
duplicate-free lists. -/
def dm_map_add : List (String × List String) → String → String →
    List (String × List String)
  | [], agent_id, msg_id => [(agent_id, [msg_id])]
  | (k, s) :: rest, agent_id, msg_id =>
      if k = agent_id then
        (k, if msg_id ∈ s then s else s ++ [msg_id]) :: rest
      else (k, s) :: dm_map_add rest agent_id msg_id

/-- Embedding of the Agent dataclass: the fields add_message touches
(id, msg_ids, the dm indexes, chat_logs with its deque bound, and the
producer/consumer __latest_msg flag). The persona plays no role in any
claim and is dropped. -/
structure Agent where
  id : String
  msg_ids : List String
  dm_msg_ids_recv : List (String × List String)
  dm_msg_ids_sent : List (String × List String)
  chat_logs : List (String × String × Bool)
  latest_msg : String
deriving DecidableEq

namespace Agent

/-- Agent.add_message_id: adds the id to the sent-message set when not
already present. -/
def add_message_id (a : Agent) (msg_id : String) : Agent :=
  if msg_id ∈ a.msg_ids then a
  else { a with msg_ids := a.msg_ids ++ [msg_id] }

/-- Agent.add_dm_message_id. -/
def add_dm_message_id (a : Agent) (msg_id agent_id : String)
    (dm_received : Bool) : Agent :=
  if dm_received then
    { a with dm_msg_ids_recv := dm_map_add a.dm_msg_ids_recv agent_id msg_id }
  else
    { a with dm_msg_ids_sent := dm_map_add a.dm_msg_ids_sent agent_id msg_id }

/-- Agent.add_to_chat_log: appends (role, msg, is_message_id) to the
bounded chat log deque and records the latest message flag. -/
def add_to_chat_log (a : Agent) (role msg : String)
    (is_message_id : Bool) : Agent :=
  { a with
      chat_logs := deque_append max_lookback_messages a.chat_logs
        (role, msg, is_message_id)
      latest_msg := msg }

end Agent

/-! ## allms/core/chat/formatter.py — the pieces add_message uses -/

/-- Python str(x) for an Optional[str] interpolated into an f-string:
None prints as "None". -/
def py_str_opt : Option String → String
  | none => "None"
  | some s => s

/-- Modelled from the spec: the allms/core/llm/roles.py module is not
part of the sources (only its importers are); it provides the chat role
labels used for agent chat-log entries. The concrete label strings do
not influence any claim. -/
def LLMRoles.system : String := "system"

/-- Modelled from the spec: see LLMRoles.system. -/
def LLMRoles.user : String := "user"

/-- Modelled from the spec: see LLMRoles.system. -/
def LLMRoles.assistant : String := "assistant"

/-- ChatMessageFormatter.create_sent_by_human_message. -/
def create_sent_by_human_message (m : ChatMessage) : String :=
  "[IMPORTANT] The human has SENT the following message via you -- \x27" ++
    m.msg ++ "\x27"

/-- ChatMessageFormatter.create_suspicion_message. The assert on a
missing suspect and the TypeError Python raises when
suspect_confidence is None is compared with 80 are both modelled as
.error. -/
def create_suspicion_message (m : ChatMessage) : Except String String :=
  match m.suspect with
  | none => .error "Creating a suspicion message but the suspect is None"
  | some suspect =>
      match m.suspect_confidence with
      | none => .error "TypeError: comparison of NoneType and int"
      | some conf =>
          let base := "Current suspect: " ++ suspect ++ "; Confidence: " ++
            toString conf ++ "; Reason: " ++ py_str_opt m.suspect_reason ++ ". "
          .ok (if conf ≥ 80 then
                 base ++ "Perhaps you should consider starting a vote"
               else base)

/-! ## allms/core/state/state.py — GameState.add_message -/

/-- The notify_msgs table of GameState.__notify_if_you_are_silent,
verbatim. -/
def notify_msgs : List String :=
  ["has been silent for too long ... almost like they\x27re afraid of slipping up.",
   "isn\x27t talking much ... maybe the human doesn\x27t know what to say.",
   "keeps avoiding the conversation ... trying not to get noticed?",
   "hasn\x27t spoken in a while ... bots don\x27t usually hold back like that.",
   "is strangely quiet ... could they be hiding something?",
   "has gone silent ... feels like they\x27re calculating every word.",
   "isn\x27t contributing ... maybe they\x27re scared of contradictions.",
   "is watching but not speaking ... suspicious behavior for a bot.",
   "seems hesitant to talk ... very human-like hesitation.",
   "is too quiet ... silence feels like a cover-up.",
   "is unusually passive ... maybe they\x27re trying to blend in.",
   "has been lurking without saying a word ... that\x27s not normal.",
   "keeps their distance in chat ... feels like the human trying not to get caught.",
   "is holding back ... bots don\x27t usually do that.",
   "is quiet ... almost like they don\x27t know how to play along."]

/-- The _who_talked deque bound (deque(maxlen=10) in state.py). -/
def who_talked_maxlen : Nat := 10

/-- CPython increment pattern on the _talk_count dict; counts are Int
because Python decrements below are unbounded. -/
def talk_incr : List (String × Int) → String → List (String × Int)
  | [], key => [(key, 1)]
  | (k, n) :: rest, key =>
      if k = key then (k, n + 1) :: rest
      else (k, n) :: talk_incr rest key

/-- The eviction bookkeeping d[key] -= 1 followed by
if d[key] == 0: del d[key]; none is the KeyError raised when the key is
absent. -/
def talk_decr : List (String × Int) → String → Option (List (String × Int))
  | [], _ => none
  | (k, n) :: rest, key =>
      if k = key then
        some (if n - 1 = 0 then rest else (k, n - 1) :: rest)
      else
        match talk_decr rest key with
        | none => none
        | some r => some ((k, n) :: r)

/-- The slice of GameState that add_message reads and writes:
_all_agents as an insertion-ordered dict, _remaining_agent_ids as the
(duplicate-free) member list of the Python set, the message history as
its append-ordered message list, and the who-spoke-recently tracker. -/
structure GState where
  your_agent_id : String
  all_agents : List (String × Agent)
  remaining_agent_ids : List String
  messages : List ChatMessage
  who_talked : List String
  talk_count : List (String × Int)
deriving DecidableEq

namespace GState

/-- ChatMessageHistory membership test (message id present). -/
def history_exists (s : GState) (msg_id : String) : Bool :=
  s.messages.any (fun m => m.id == msg_id)

/-- Dict access into _all_agents. -/
def get_agent (s : GState) (agent_id : String) : Option Agent :=
  s.all_agents.lookup agent_id

/-- In-place update of one agent object in _all_agents (Python mutates
the stored object; here the entry is replaced). -/
def update_agent (s : GState) (agent_id : String) (f : Agent → Agent) : GState :=
  { s with
      all_agents := s.all_agents.map
        (fun p => if p.1 = agent_id then (p.1, f p.2) else p) }

/-- Adding one element to a Python set modelled as a duplicate-free
list. -/
def set_add (xs : List String) (x : String) : List String :=
  if x ∈ xs then xs else xs ++ [x]

/-- The loop for aid in broadcast_msg_to: each recipient gets the
message id appended to its chat log, the sender under the assistant
role, everyone else under the user role. The direct dict access
self._all_agents[aid] raises a KeyError when the id is untracked
(.error). Python iterates the set in unspecified order; the iteration
here follows the build order of the list, and since distinct ids update
distinct dict entries the resulting state does not depend on that
order. -/
def add_id_to_chat_logs (agent_id msg_id : String) :
    List String → GState → Except String GState
  | [], s => .ok s
  | aid :: rest, s =>
      match s.get_agent aid with
      | none => .error ("KeyError: " ++ aid)
      | some _ =>
          let role := if aid = agent_id then LLMRoles.assistant else LLMRoles.user
          add_id_to_chat_logs agent_id msg_id rest
            (s.update_agent aid (fun a => a.add_to_chat_log role msg_id true))

/-- GameState.__notify_if_you_are_silent. rand_idx is the index
random.choice draws from notify_msgs (randomness as an explicit
input). The announce path goes through announce_to_agents with a plain
string and a single recipient, which appends it verbatim to that
agent's chat log under the system role via a direct dict access
(KeyError = .error). -/
def notify_if_you_are_silent (s : GState) (agent_id : String)
    (rand_idx : Nat) : Except String GState :=
  if agent_id ∉ s.remaining_agent_ids then .ok s
  else
    let n_talked := s.who_talked.length
    let evicted :=
      if n_talked = who_talked_maxlen then
        match s.who_talked with
        | [] => some s.talk_count
        | oldest :: _ => talk_decr s.talk_count oldest
      else some s.talk_count
    match evicted with
    | none => .error "KeyError in _talk_count"
    | some tc =>
        let s1 := { s with
          who_talked := deque_append who_talked_maxlen s.who_talked agent_id
          talk_count := talk_incr tc agent_id }
        if (s1.talk_count.lookup s1.your_agent_id).isSome ∨
            n_talked < who_talked_maxlen then
          .ok s1
        else
          let notify_msg := "[IMPORTANT] " ++ py_upper s1.your_agent_id ++ " " ++
            (notify_msgs.getD (rand_idx % notify_msgs.length) "") ++
            " Perhaps you should SHIFT YOUR FOCUS TO THEM."
          match s1.get_agent agent_id with
          | none => .error ("KeyError: " ++ agent_id)
          | some _ =>
              .ok (s1.update_agent agent_id
                (fun a => a.add_to_chat_log LLMRoles.system notify_msg false))

/-- Embedding of GameState.add_message. .error models a raised
exception (assert, KeyError or TypeError; Python state mutated before
the raise point is not tracked, since every raising call aborts the
surrounding operation). The early return for a sender that is no
longer in _remaining_agent_ids is exactly as in the source: a log line
and a plain return, hence .ok with the state unchanged. rand_idx feeds
the silence-notification randomness. -/
def add_message (s : GState) (message : ChatMessage) (rand_idx : Nat) :
    Except String GState :=
  -- assert: a reply must reference an existing message id
  if message.reply_to_id.any (fun rid => !s.history_exists rid) then
    .error ("Trying to reply to a message ID which does not exist in the history")
  else if message.sent_by ∉ s.remaining_agent_ids then
    -- logged and silently ignored in the source; no exception is raised
    .ok s
  -- ChatMessageHistory.add asserts the id is fresh, then appends
  else if s.history_exists message.id then
    .error ("Can\x27t insert as ID(" ++ message.id ++ ") already exists in the history")
  else
    let agent_id := message.sent_by
    let s1 := { s with messages := s.messages ++ [message] }
    -- get_agent asserts the sender is a tracked agent
    match s1.get_agent agent_id with
    | none => .error ("Trying to get agent ID(" ++ agent_id ++ ") but it doesn\x27t exist")
    | some _ =>
      let s2 := s1.update_agent agent_id (fun a => a.add_message_id message.id)
      -- sent by the human through another agent: note it in that agent's log
      let s3 :=
        if agent_id ≠ s2.your_agent_id ∧ message.sent_by_you then
          s2.update_agent agent_id (fun a =>
            a.add_to_chat_log LLMRoles.system
              (create_sent_by_human_message message) false)
        else s2
      -- a suspicion snapshot from an LLM: note it in the sender's log
      let step4 : Except String GState :=
        if ¬message.sent_by_you ∧ message.suspect.isSome then
          match create_suspicion_message message with
          | .error e => .error e
          | .ok fmt =>
              .ok (s3.update_agent agent_id (fun a =>
                a.add_to_chat_log LLMRoles.system fmt false))
        else .ok s3
      match step4 with
      | .error e => .error e
      | .ok s4 =>
        -- DM bookkeeping, or broadcast to every remaining agent
        let step5 : Except String (GState × List String) :=
          match message.sent_to with
          | some sent_to =>
            match s4.get_agent sent_to with
            | none =>
                .error ("Trying to get agent ID(" ++ sent_to ++
                  ") but it doesn\x27t exist")
            | some agent_to =>
              let s5 := s4.update_agent agent_id (fun a =>
                a.add_dm_message_id message.id agent_to.id false)
              let s6 := s5.update_agent sent_to (fun a =>
                a.add_dm_message_id message.id agent_id true)
              .ok (s6, set_add [agent_id] sent_to)
          | none => .ok (s4, s4.remaining_agent_ids.foldl set_add [agent_id])
        match step5 with
        | .error e => .error e
        | .ok (s7, broadcast_msg_to) =>
          match add_id_to_chat_logs agent_id message.id broadcast_msg_to s7 with
          | .error e => .error e
          | .ok s8 => s8.notify_if_you_are_silent agent_id rand_idx

end GState

/-! ## Concrete fixtures for the closed statements -/

/-- A fresh ChatMessage, as GameStateManager.__create_new_message builds
one before any edits. -/
def msg_template : ChatMessage :=
  { id := "0"
    timestamp := "2025-01-01 00:00:00"
    msg := "hello"
    sent_by := "agent-a"
    sent_by_you := false
    sent_to := none
    thought_process := ""
    reply_to_id := none
    edited := false
    deleted := false
    edited_by_you := false
    deleted_by_you := false
    is_announcement := false
    suspect := none
    suspect_confidence := none
    suspect_reason := none
    history_log := [] }

/-- A fresh Agent with the given id. -/
def fresh_agent (aid : String) : Agent :=
  { id := aid
    msg_ids := []
    dm_msg_ids_recv := []
    dm_msg_ids_sent := []
    chat_logs := []
    latest_msg := "" }

/-- A two-agent game in which agent-a has already been terminated:
only agent-b (the human) is still in _remaining_agent_ids. -/
def state_a_terminated : GState :=
  { your_agent_id := "agent-b"
    all_agents := [("agent-a", fresh_agent "agent-a"),
                   ("agent-b", fresh_agent "agent-b")]
    remaining_agent_ids := ["agent-b"]
    messages := []
    who_talked := []
    talk_count := [] }

/-- The AgentVoting state after a complete three-agent round — a, b and
c all vote for b, then end_vote closes the round — reached purely
through the AgentVoting operations. -/
def stale_round : Option AgentVoting :=
  Option.map Prod.fst
    (((((AgentVoting.init.start_vote "a").vote "a" "b").1.vote
        "b" "b").1.vote "c" "b").1.end_vote)

/-- start_vote, one vote, then reset — again reached purely through the
AgentVoting operations. -/
def reset_after_vote : AgentVoting :=
  ((AgentVoting.init.start_vote "a").vote "a" "b").1.reset

/-! ## Shared lemmas -/

theorem foldl_max_init (xs : List Nat) (x : Nat) : x ≤ xs.foldl max x := by
  induction xs generalizing x with
  | nil => exact le_refl x
  | cons y ys ih => exact le_trans (le_max_left x y) (ih (max x y))

theorem foldl_max_le {a : Nat} (xs : List Nat) (x : Nat) (h : a ∈ xs) :
    a ≤ xs.foldl max x := by
  induction xs generalizing x with
  | nil => cases h
  | cons y ys ih =>
      rcases List.mem_cons.mp h with rfl | hmem
      · exact le_trans (le_max_right x a) (foldl_max_init ys (max x a))
      · exact ih (max x y) hmem

theorem foldl_max_attained (xs : List Nat) (x : Nat) :
    xs.foldl max x = x ∨ xs.foldl max x ∈ xs := by
  induction xs generalizing x with
  | nil => exact Or.inl rfl
  | cons y ys ih =>
      have hstep : (y :: ys).foldl max x = ys.foldl max (max x y) := rfl
      rcases ih (max x y) with h | h
      · rcases max_choice x y with h' | h'
        · exact Or.inl (by rw [hstep, h, h'])
        · refine Or.inr ?_
          rw [hstep, h, h']
          exact List.mem_cons_self y ys
      · refine Or.inr ?_
        rw [hstep]
        exact List.mem_cons_of_mem y h

theorem dict_max_value_ge {p : String × Nat} {d : List (String × Nat)}
    (h : p ∈ d) : p.2 ≤ dict_max_value d := by
  have hmem : p.2 ∈ d.map Prod.snd := List.mem_map_of_mem Prod.snd h
  unfold dict_max_value
  cases hd : d.map Prod.snd with
  | nil => rw [hd] at hmem; cases hmem
  | cons v vs =>
      rw [hd] at hmem
      rcases List.mem_cons.mp hmem with rfl | hmem'
      · exact foldl_max_init vs p.2
      · exact foldl_max_le vs v hmem'

theorem dict_max_value_attained {d : List (String × Nat)} (h : d ≠ []) :
    ∃ p ∈ d, p.2 = dict_max_value d := by
  have hmem : dict_max_value d ∈ d.map Prod.snd := by
    unfold dict_max_value
    cases hd : d.map Prod.snd with
    | nil =>
        exact absurd (List.map_eq_nil_iff.mp hd) h
    | cons v vs =>
        show vs.foldl max v ∈ v :: vs
        rcases foldl_max_attained vs v with h' | h'
        · rw [h']; exact List.mem_cons_self v vs
        · exact List.mem_cons_of_mem v h'
  rcases List.mem_map.mp hmem with ⟨p, hp, hval⟩
  exact ⟨p, hp, hval⟩

theorem mem_len_le_one {α : Type} {l : List α} (h : l.length ≤ 1) {x y : α}
    (hx : x ∈ l) (hy : y ∈ l) : x = y := by
  match l with
  | [] => cases hx
  | [a] =>
      rw [List.mem_singleton.mp hx, List.mem_singleton.mp hy]
  | a :: b :: rest => simp at h

theorem dict_total_ne_zero {d : List (String × Nat)} (h : dict_total d ≠ 0) :
    d ≠ [] := by
  intro hnil
  exact h (by rw [hnil]; rfl)

theorem half_ceil_eq (n : Nat) : ((n + 1) / 2 : ℕ) = ⌈(n : ℚ) / 2⌉₊ := by
  rcases Nat.even_or_odd n with ⟨k, hk⟩ | ⟨k, hk⟩ <;> subst hk
  · rw [show ((k + k : ℕ) : ℚ) = (2 * k : ℚ) by push_cast; ring]
    rw [mul_div_cancel_left₀ _ (by norm_num : (2 : ℚ) ≠ 0)]
    simp [Nat.ceil_natCast]
    omega
  · have h1 : ((2 * k + 1 + 1) / 2 : ℕ) = k + 1 := by omega
    rw [h1]
    symm
    rw [Nat.ceil_eq_iff (by omega)]
    constructor
    · push_cast
      linarith
    · push_cast
      linarith

/-- Branch-free restatement of process_vote_results used by the proofs
below. -/
theorem process_vote_results_eq (results : List (String × Nat)) (n : Nat) :
    process_vote_results results n =
      if dict_total results = 0 then none
      else if dict_total results < (n + 1) / 2 then none
      else if 1 < (results.filter (fun p => p.2 = dict_max_value results)).length
        then none
      else ((results.filter
              (fun p => p.2 = dict_max_value results)).map Prod.fst).head? := by
  unfold process_vote_results
  simp only [List.length_map, gt_iff_lt]

/-- C1: when end_vote closes an open round with n_remaining agents
still in the game, __process_vote_results rejects (returns no agent to
kick) exactly when zero votes were cast, or the total cast is below
ceil(0.5 * n_remaining) (= (n+1)/2 for naturals, first conjunct), or
at least two tally entries tie for the maximum; otherwise the returned
agent's tally is the strict maximum: it equals the maximum and every
entry for a different agent is strictly below it. The two concrete
cases of the spec close the statement: with n_remaining = 5 the tally
A:2, B:2 is rejected, and A:3 (two non-voters) terminates A. -/
theorem process_vote_results_spec (results : List (String × Nat)) (n : Nat) :
    ((n + 1) / 2 : ℕ) = ⌈(n : ℚ) / 2⌉₊
    ∧ (process_vote_results results n = none ↔
        dict_total results = 0 ∨ dict_total results < (n + 1) / 2 ∨
          2 ≤ (results.filter (fun p => p.2 = dict_max_value results)).length)
    ∧ (∀ a, process_vote_results results n = some a →
        (a, dict_max_value results) ∈ results ∧
        ∀ p ∈ results, p.1 ≠ a → p.2 < dict_max_value results)
    ∧ process_vote_results [("A", 2), ("B", 2)] 5 = none
    ∧ process_vote_results [("A", 3)] 5 = some "A" := by
  have hhead : ∀ (h0 : dict_total results ≠ 0),
      ∃ p, ((results.filter
        (fun p => p.2 = dict_max_value results)).map Prod.fst).head? = some p.1
        ∧ p ∈ results ∧ p.2 = dict_max_value results := by
    intro h0
    obtain ⟨p, hp, hpv⟩ := dict_max_value_attained (dict_total_ne_zero h0)
    have hpF : p ∈ results.filter (fun p => p.2 = dict_max_value results) :=
      List.mem_filter.mpr ⟨hp, decide_eq_true hpv⟩
    obtain ⟨r, rs, hF⟩ : ∃ r rs,
        results.filter (fun p => p.2 = dict_max_value results) = r :: rs := by
      cases hF : results.filter (fun p => p.2 = dict_max_value results) with
      | nil => rw [hF] at hpF; cases hpF
      | cons r rs => exact ⟨r, rs, rfl⟩
    have hrF : r ∈ results.filter (fun p => p.2 = dict_max_value results) := by
      rw [hF]; exact List.mem_cons_self r rs
    refine ⟨r, ?_, (List.mem_filter.mp hrF).1,
      of_decide_eq_true (List.mem_filter.mp hrF).2⟩
    rw [List.head?_map, hF]
    rfl
  refine ⟨half_ceil_eq n, ?_, ?_, by decide, by decide⟩
  · -- the rejection characterization
    rw [process_vote_results_eq]
    by_cases h0 : dict_total results = 0
    · simp [h0]
    by_cases h1 : dict_total results < (n + 1) / 2
    · simp [h0, h1]
    by_cases h2 : 1 <
        (results.filter (fun p => p.2 = dict_max_value results)).length
    · simp [h0, h1, h2]
      omega
    · obtain ⟨p, hp, _, _⟩ := hhead h0
      simp [h0, h1, h2, hp]
      omega
  · -- the terminated agent strictly holds the maximum
    intro a ha
    rw [process_vote_results_eq] at ha
    by_cases h0 : dict_total results = 0
    · simp [h0] at ha
    by_cases h1 : dict_total results < (n + 1) / 2
    · simp [h0, h1] at ha
    by_cases h2 : 1 <
        (results.filter (fun p => p.2 = dict_max_value results)).length
    · simp [h0, h1, h2] at ha
    · rw [if_neg h0, if_neg h1, if_neg h2, List.head?_map] at ha
      obtain ⟨p, hphead, hpa⟩ := Option.map_eq_some'.mp ha
      have hpF : p ∈ results.filter (fun p => p.2 = dict_max_value results) :=
        List.mem_of_mem_head? (Option.mem_def.mpr hphead)
      have hpR : p ∈ results := (List.mem_filter.mp hpF).1
      have hpv : p.2 = dict_max_value results :=
        of_decide_eq_true (List.mem_filter.mp hpF).2
      constructor
      · have hpe : (a, dict_max_value results) = p := by
          rw [← hpa, ← hpv]
        rw [hpe]
        exact hpR
      · intro q hq hqa
        have hle := dict_max_value_ge hq
        rcases lt_or_eq_of_le hle with hlt | heq
        · exact hlt
        · exfalso
          have hqF : q ∈ results.filter (fun p => p.2 = dict_max_value results) :=
            List.mem_filter.mpr ⟨hq, decide_eq_true heq⟩
          have : q = p := mem_len_le_one (by omega) hqF hpF
          exact hqa (by rw [this, hpa])

/-- Witness for process_vote_results_spec: the concrete A:3 instance
with n_remaining = 5, with the strict-maximum consequence derived
through the theorem. -/
theorem process_vote_results_spec_witness :
    process_vote_results [("A", 3)] 5 = some "A" ∧
    ("A", dict_max_value [("A", 3)]) ∈ [("A", 3)] :=
  ⟨(process_vote_results_spec [("A", 3)] 5).2.2.2.2,
   ((process_vote_results_spec [("A", 3)] 5).2.2.1 "A"
      (process_vote_results_spec [("A", 3)] 5).2.2.2.2).1⟩

/-- C3 (code bug witnessed): after a fully voted three-agent round is
closed by end_vote, voting has not started (the round is closed), yet
can_end_vote with the same 3 remaining agents returns True — the
source guard tests the truthiness of the tuple returned by
voting_has_started, which is always truthy, so the
return-False-when-not-started branch is dead code and the function
falls through to the everyone-has-voted check on the stale vote map. -/
theorem can_end_vote_not_started_bug :
    stale_round.map (fun v => (v.vote_has_started, can_end_vote v 3)) =
      some (false, some true) := by decide

/-- C6 (code bug witnessed): starting a round, casting one vote and
calling reset leaves sum(result_map.values()) = 1 while vote_map is
empty, violating the spec invariant
sum(_result_map.values()) == len(_vote_map): reset clears _vote_map
but never clears _result_map. -/
theorem vote_reset_breaks_tally_invariant :
    reset_after_vote.sum_results = 1 ∧
    reset_after_vote.vote_map.length = 0 ∧
    reset_after_vote.vote_has_started = false := by decide

/-- C9: start_vote is idempotent. A second start_vote right after a
first one changes nothing at all (first conjunct); after any first
call the round is open; a first call on a closed round records the
caller in started_by; any state with an open round — in particular one
with votes already recorded — is left untouched by a further
start_vote, so the votes recorded so far and started_by survive; and
GameState.start_voting returns False for the second call. -/
theorem start_vote_idempotent (v : AgentVoting) (a b : String) :
    (v.start_vote a).start_vote b = v.start_vote a
    ∧ (v.start_vote a).vote_has_started = true
    ∧ (v.vote_has_started = false → (v.start_vote a).started_by = some a)
    ∧ (∀ w : AgentVoting, w.vote_has_started = true → w.start_vote b = w)
    ∧ (∀ x y : String,
        (((v.start_vote a).vote x y).1).start_vote b = ((v.start_vote a).vote x y).1)
    ∧ start_voting (v.start_vote a) b = (v.start_vote a, false) := by
  have hopen : ∀ w : AgentVoting, w.vote_has_started = true →
      w.start_vote b = w := by
    intro w hw
    unfold AgentVoting.start_vote
    rw [hw]
    rfl
  have hstarted : (v.start_vote a).vote_has_started = true := by
    unfold AgentVoting.start_vote
    cases hv : v.vote_has_started with
    | false => rfl
    | true => simpa using hv
  refine ⟨hopen _ hstarted, hstarted, ?_, hopen, ?_, ?_⟩
  · intro hv
    unfold AgentVoting.start_vote
    rw [hv]
    rfl
  · intro x y
    refine hopen _ ?_
    unfold AgentVoting.vote
    cases hcv : (v.start_vote a).can_vote x with
    | false => simpa using hstarted
    | true => simpa using hstarted
  · unfold start_voting AgentVoting.voting_has_started
    rw [hstarted]
    rfl

/-- Witness for start_vote_idempotent at a concrete closed initial
state. -/
theorem start_vote_idempotent_witness :
    (AgentVoting.init.start_vote "a").start_vote "b" =
      AgentVoting.init.start_vote "a"
    ∧ (AgentVoting.init.start_vote "a").started_by = some "a" :=
  ⟨(start_vote_idempotent AgentVoting.init "a" "b").1,
   (start_vote_idempotent AgentVoting.init "a" "b").2.2.1 rfl⟩

/-- C4: once a ChatMessage is deleted, edit and delete are complete
no-ops (the message record, hence its msg, flags and history length,
is unchanged); before deletion, an edit or delete appends exactly one
history entry whose prev_msg is the message content from before the
mutation (and the other fields change exactly as the source writes
them). -/
theorem chat_message_edit_delete_spec (m : ChatMessage) (new_msg : String)
    (b : Bool) (ts : String) :
    (m.deleted = true → m.edit new_msg b ts = m ∧ m.delete b ts = m)
    ∧ (m.deleted = false →
        m.edit new_msg b ts =
          { m with
              msg := new_msg
              edited := true
              edited_by_you := b
              history_log := m.history_log ++
                [{ timestamp := ts, prev_msg := m.msg,
                   edited_by_you := b, deleted_by_you := false }] }
        ∧ m.delete b ts =
          { m with
              deleted := true
              deleted_by_you := b
              msg := "This message has been deleted"
              history_log := m.history_log ++
                [{ timestamp := ts, prev_msg := m.msg,
                   edited_by_you := false, deleted_by_you := b }] }) := by
  constructor
  · intro hdel
    unfold ChatMessage.edit ChatMessage.delete ChatMessage.can_edit_or_delete
    rw [hdel]
    exact ⟨rfl, rfl⟩
  · intro hdel
    unfold ChatMessage.edit ChatMessage.delete ChatMessage.can_edit_or_delete
    rw [hdel]
    exact ⟨rfl, rfl⟩

/-- Witness for chat_message_edit_delete_spec: a deleted concrete
message ignores an edit, and a live one records the previous content. -/
theorem chat_message_edit_delete_spec_witness :
    ({ msg_template with deleted := true }.edit "x" true "t1" =
        { msg_template with deleted := true })
    ∧ (msg_template.edit "x" true "t1").history_log =
        [{ timestamp := "t1", prev_msg := "hello",
           edited_by_you := true, deleted_by_you := false }] :=
  ⟨((chat_message_edit_delete_spec { msg_template with deleted := true }
      "x" true "t1").1 rfl).1,
   by
    rw [(chat_message_edit_delete_spec msg_template "x" true "t1").2 rfl |>.1]
    rfl⟩

/-- C2: for every terminate_agent call that completes (no assert
fires): terminating the human's own agent ends the game with
game_won = False whatever the count; terminating another agent when
exactly 3 remained beforehand ends the game with game_won = True and
leaves exactly 2 remaining — including the human whenever the human
was among the remaining; in every other completing case the game-over
flags are untouched, only the terminated agent's chat loop is stopped,
and the NOT-the-human announcement goes to exactly the remaining
agents after the removal. -/
theorem terminate_agent_spec (all_agents : Finset String) (your_id : String)
    (remaining : Finset String) (ge gw : Bool) (agent_id : String)
    (r : TerminateResult)
    (h : terminate_agent all_agents your_id remaining ge gw agent_id = some r) :
    (agent_id = your_id → r.game_ended = true ∧ r.game_won = false)
    ∧ (agent_id ≠ your_id → remaining.card = 3 →
        r.game_ended = true ∧ r.game_won = true ∧ r.remaining.card = 2 ∧
        (your_id ∈ remaining → your_id ∈ r.remaining))
    ∧ (agent_id ≠ your_id → remaining.card ≠ 3 →
        r.game_ended = ge ∧ r.game_won = gw ∧ r.stopped = .one agent_id ∧
        r.not_human_announced_to = some (remaining.erase agent_id)) := by
  unfold terminate_agent at h
  by_cases hyour : your_id = "" ∨ your_id ∉ all_agents
  · rw [if_pos hyour] at h
    cases h
  rw [if_neg hyour] at h
  by_cases hmem : agent_id ∉ remaining
  · rw [if_pos hmem] at h
    cases h
  rw [if_neg hmem] at h
  push_neg at hmem
  refine ⟨?_, ?_, ?_⟩
  · intro heq
    have hcond : ¬(agent_id ≠ your_id ∧
        ¬(remaining.card = 3 ∧ agent_id ≠ your_id)) := by
      intro hc
      exact hc.1 heq
    rw [if_neg hcond] at h
    obtain rfl := (Option.some.injEq _ _).mp h
    refine ⟨rfl, ?_⟩
    simp [heq]
  · intro hne hcard
    have hcond : ¬(agent_id ≠ your_id ∧
        ¬(remaining.card = 3 ∧ agent_id ≠ your_id)) := by
      intro hc
      exact hc.2 ⟨hcard, hne⟩
    rw [if_neg hcond] at h
    obtain rfl := (Option.some.injEq _ _).mp h
    refine ⟨rfl, by simp [hcard, hne], ?_, ?_⟩
    · simp [Finset.card_erase_of_mem hmem, hcard]
    · intro hyr
      exact Finset.mem_erase.mpr ⟨fun hx => hne hx.symm, hyr⟩
  · intro hne hcard
    have hcond : agent_id ≠ your_id ∧
        ¬(remaining.card = 3 ∧ agent_id ≠ your_id) := by
      exact ⟨hne, fun hc => hcard hc.1⟩
    rw [if_pos hcond] at h
    by_cases hsmall : (remaining.erase agent_id).card < 2
    · rw [if_pos hsmall] at h
      cases h
    rw [if_neg hsmall] at h
    obtain rfl := (Option.some.injEq _ _).mp h
    exact ⟨rfl, rfl, rfl, rfl⟩

/-- Witness for terminate_agent_spec: four agents a–d, human is b,
agent a is terminated; the game goes on, a's loop is stopped and b, c,
d get the announcement. -/
theorem terminate_agent_spec_witness :
    terminate_agent {"a", "b", "c", "d"} "b" {"a", "b", "c", "d"} false false "a" =
      some { game_ended := false
             game_won := false
             remaining := ({"b", "c", "d"} : Finset String)
             stopped := .one "a"
             not_human_announced_to := some ({"b", "c", "d"} : Finset String) }
    ∧ ({ game_ended := false
         game_won := false
         remaining := ({"b", "c", "d"} : Finset String)
         stopped := .one "a"
         not_human_announced_to :=
           some ({"b", "c", "d"} : Finset String) } : TerminateResult).game_ended
        = false := by
  constructor
  · decide
  · exact (terminate_agent_spec {"a", "b", "c", "d"} "b" {"a", "b", "c", "d"}
      false false "a" _ (by decide)).2.2 (by decide) (by decide) |>.1

/-- Accumulator law for the decimal decoder. -/
theorem dec_val_foldl (cs : List Char) (a : Nat) :
    cs.foldl (fun acc c => 10 * acc + (c.toNat - '0'.toNat)) a =
      a * 10 ^ cs.length + dec_val cs := by
  induction cs generalizing a with
  | nil => simp [dec_val]
  | cons c cs ih =>
      have h1 : (c :: cs).foldl (fun acc c => 10 * acc + (c.toNat - '0'.toNat)) a =
          cs.foldl (fun acc c => 10 * acc + (c.toNat - '0'.toNat))
            (10 * a + (c.toNat - '0'.toNat)) := rfl
      have h2 : dec_val (c :: cs) =
          cs.foldl (fun acc c => 10 * acc + (c.toNat - '0'.toNat))
            (10 * 0 + (c.toNat - '0'.toNat)) := rfl
      rw [h1, ih, h2, ih, List.length_cons]
      ring

/-- Nat.digitChar decodes back to the digit it encodes. -/
theorem digitChar_val : ∀ m < 10, (Nat.digitChar m).toNat - '0'.toNat = m := by
  decide

/-- Correctness of the core decimal printer against the decoder. -/
theorem dec_val_toDigitsCore (fuel : Nat) :
    ∀ n ds, n < fuel →
      dec_val (Nat.toDigitsCore 10 fuel n ds) =
        n * 10 ^ ds.length + dec_val ds := by
  induction fuel with
  | zero => intro n ds h; exact absurd h (Nat.not_lt_zero n)
  | succ fuel ih =>
      intro n ds h
      show dec_val (if n / 10 = 0 then Nat.digitChar (n % 10) :: ds
        else Nat.toDigitsCore 10 fuel (n / 10) (Nat.digitChar (n % 10) :: ds)) = _
      have hcons : dec_val (Nat.digitChar (n % 10) :: ds) =
          (n % 10) * 10 ^ ds.length + dec_val ds := by
        have h3 : dec_val (Nat.digitChar (n % 10) :: ds) =
            ds.foldl (fun acc c => 10 * acc + (c.toNat - '0'.toNat))
              (10 * 0 + ((Nat.digitChar (n % 10)).toNat - '0'.toNat)) := rfl
        rw [h3, dec_val_foldl, digitChar_val (n % 10) (by omega)]
        ring
      by_cases hz : n / 10 = 0
      · rw [if_pos hz, hcons]
        have hmod : n % 10 = n := by omega
        rw [hmod]
      · rw [if_neg hz]
        have hlt : n / 10 < fuel := by omega
        rw [ih (n / 10) (Nat.digitChar (n % 10) :: ds) hlt, hcons,
          List.length_cons]
        calc (n / 10) * 10 ^ (ds.length + 1) +
              ((n % 10) * 10 ^ ds.length + dec_val ds)
            = (10 * (n / 10) + n % 10) * 10 ^ ds.length + dec_val ds := by ring
          _ = n * 10 ^ ds.length + dec_val ds := by rw [Nat.div_add_mod]

/-- Decoding the decimal digits of n recovers n. -/
theorem dec_val_toDigits (n : Nat) : dec_val (Nat.toDigits 10 n) = n := by
  have h := dec_val_toDigitsCore (n + 1) n [] (Nat.lt_succ_self n)
  simpa [dec_val] using h

/-- str(n) (Nat.repr, which is what toString on Nat unfolds to) is
injective: distinct counters yield distinct id strings. -/
theorem nat_repr_injective : Function.Injective Nat.repr := by
  intro m n h
  have hdata : Nat.toDigits 10 m = Nat.toDigits 10 n := congrArg String.data h
  have hm := dec_val_toDigits m
  have hn := dec_val_toDigits n
  rw [hdata] at hm
  omega

/-- The id handed out by the i-th allocation of a trace starting at
counter start is str(start + i). -/
theorem generate_ids_get (start n : Nat) :
    ∀ i, i < n → ((generate_ids ⟨start⟩ n).1)[i]? = some (toString (start + i)) := by
  induction n generalizing start with
  | zero => intro i h; exact absurd h (Nat.not_lt_zero i)
  | succ n ih =>
      intro i h
      show (toString start :: (generate_ids ⟨start + 1⟩ n).1)[i]? =
        some (toString (start + i))
      match i with
      | 0 => rw [List.getElem?_cons_zero, Nat.add_zero]
      | j + 1 =>
          have hstep : (toString start :: (generate_ids ⟨start + 1⟩ n).1)[j + 1]? =
              ((generate_ids ⟨start + 1⟩ n).1)[j]? := List.getElem?_cons_succ
          rw [hstep, ih (start + 1) j (by omega)]
          have harg : start + 1 + j = start + (j + 1) := by omega
          rw [harg]

/-- C5: in every allocation trace (concurrent callers are serialized by
the manager's id-generator lock, so any interleaving is some trace),
the id of the i-th allocation is str(start + i); for i < j the
underlying counters strictly increase and the two id strings differ —
ids are unique and strictly increasing in allocation order. -/
theorem message_id_monotonic (start n i j : Nat) (hij : i < j) (hjn : j < n) :
    ((generate_ids ⟨start⟩ n).1)[i]? = some (toString (start + i))
    ∧ ((generate_ids ⟨start⟩ n).1)[j]? = some (toString (start + j))
    ∧ start + i < start + j
    ∧ toString (start + i) ≠ toString (start + j) := by
  refine ⟨generate_ids_get start n i (by omega), generate_ids_get start n j hjn,
    by omega, ?_⟩
  intro hcontra
  have heq : start + i = start + j := nat_repr_injective hcontra
  omega

/-- Witness for message_id_monotonic: a 12-allocation trace from a
fresh generator; allocations 2 and 11 get the distinct ids "2" and
"11". -/
theorem message_id_monotonic_witness :
    ((generate_ids ⟨0⟩ 12).1)[2]? = some "2"
    ∧ ((generate_ids ⟨0⟩ 12).1)[11]? = some "11"
    ∧ ("2" : String) ≠ "11" :=
  ⟨(message_id_monotonic 0 12 2 11 (by decide) (by decide)).1,
   (message_id_monotonic 0 12 2 11 (by decide) (by decide)).2.1,
   (message_id_monotonic 0 12 2 11 (by decide) (by decide)).2.2.2⟩

/-- C7 (counterexample to the claim as stated): a concrete add_message
call whose sender agent-a has been terminated returns .ok with the
state unchanged — the source logs the rejection and returns; it does
not raise, so no error aborts the operation. -/
theorem add_message_terminated_sender_no_error :
    GState.add_message state_a_terminated msg_template 0 =
      .ok state_a_terminated := rfl

/-- C7 (amended): whenever the reply-target assert passes, an
add_message call whose sender is not in _remaining_agent_ids is a
silent no-op — it returns normally (no exception) and neither the
message history nor any agent bookkeeping changes, the state being
returned untouched. -/
theorem add_message_terminated_sender_silent_noop (s : GState)
    (m : ChatMessage) (rand_idx : Nat)
    (hreply : ∀ rid, m.reply_to_id = some rid → s.history_exists rid = true)
    (hterm : m.sent_by ∉ s.remaining_agent_ids) :
    s.add_message m rand_idx = .ok s := by
  have h1 : m.reply_to_id.any (fun rid => !s.history_exists rid) = false := by
    cases hrid : m.reply_to_id with
    | none => rfl
    | some rid =>
        show (!s.history_exists rid) = false
        rw [hreply rid hrid]
        rfl
  unfold GState.add_message
  rw [h1, if_neg Bool.false_ne_true, if_pos hterm]

/-- Witness for add_message_terminated_sender_silent_noop at the
concrete terminated-sender state. -/
theorem add_message_terminated_sender_silent_noop_witness :
    GState.add_message state_a_terminated
      { msg_template with msg := "ignored" } 3 = .ok state_a_terminated :=
  add_message_terminated_sender_silent_noop state_a_terminated
    { msg_template with msg := "ignored" } 3
    (by intro rid hrid; cases hrid) (by decide)

/-- An association-list lookup finds a key appended at the end when the
prefix does not bind it. -/
theorem lookup_append_self {β : Type} (key : String) (v : β)
    (r : List (String × β)) (h : List.lookup key r = none) :
    List.lookup key (r ++ [(key, v)]) = some v := by
  induction r with
  | nil => simp [List.lookup]
  | cons p rest ih =>
      obtain ⟨k, b⟩ := p
      by_cases hk : (key == k) = true
      · exfalso
        simp only [List.lookup, hk] at h
        cases h
      · have hk2 : (key == k) = false := by
          cases hkk : (key == k) with
          | true => exact absurd hkk hk
          | false => rfl
        simp only [List.cons_append, List.lookup, hk2] at h ⊢
        exact ih h

/-- When the coercion succeeds, a present key makes add_to_result keep
the dict unchanged. -/
theorem add_to_result_of_isSome (key c : String)
    (r : List (String × PyValue)) (v : PyValue)
    (hc : coerce_contents c = .ok v)
    (h : (List.lookup key r).isSome = true) :
    add_to_result key c r = .ok r := by
  unfold add_to_result
  rw [hc]
  show Except.ok (if (List.lookup key r).isSome = true then r
    else r ++ [(key, v)]) = Except.ok r
  rw [if_pos h]

/-- When the coercion succeeds, an absent key makes add_to_result
append the coerced value. -/
theorem add_to_result_of_none (key c : String)
    (r : List (String × PyValue)) (v : PyValue)
    (hc : coerce_contents c = .ok v)
    (h : List.lookup key r = none) :
    add_to_result key c r = .ok (r ++ [(key, v)]) := by
  unfold add_to_result
  rw [hc]
  show Except.ok (if (List.lookup key r).isSome = true then r
    else r ++ [(key, v)]) = Except.ok (r ++ [(key, v)])
  rw [if_neg]
  rw [h]
  exact Bool.false_ne_true

/-- add_to_result propagates a coercion error before the presence
check ever runs: coerce-first order of the source. -/
theorem add_to_result_of_coerce_error (key c : String)
    (r : List (String × PyValue)) (e : String)
    (hc : coerce_contents c = .error e) :
    add_to_result key c r = .error e := by
  unfold add_to_result
  rw [hc]

/-- C8 (counterexample to the claim as stated): a response containing
the unknown-key line FOO: bar parses without any error — the line is
skipped by the key filter before the raising code is ever reached, so
no parse error carrying that content is raised. -/
theorem parse_unknown_key_no_error :
    parse "MESSAGE: hi\nINTENT: x\nFOO: bar" =
      .ok [("message", PyValue.pystr "hi"), ("intent", PyValue.pystr "x")] := rfl

/-- C8 (amended): the line loop ignores blank lines and lines whose
text before the first colon is not a recognized key; a recognized-key
line raises a parse error when its key: value split is malformed (no
colon to split on), that message not quoting the line, and also when
its value is a numeric-looking token rejected by int() — that message
quoting the offending content (int()'s ValueError text plus the schema
note). -/
theorem parse_line_handling_spec (l : String) (rest : List String)
    (acc : List (String × PyValue)) :
    (py_strip l = "" → parse_lines (l :: rest) acc = parse_lines rest acc)
    ∧ (List.lookup (py_strip (py_split_head (py_strip l))) parser_map = none →
        parse_lines (l :: rest) acc = parse_lines rest acc)
    ∧ (py_strip l ≠ "" →
        (List.lookup (py_strip (py_split_head (py_strip l))) parser_map).isSome
          = true →
        py_split_once (py_strip l) = none →
        parse_lines (l :: rest) acc =
          .error ("not enough values to unpack (expected 2, got 1). " ++
                  "Doesn't match the requested output schema"))
    ∧ (∀ k contents model_key e,
        py_strip l ≠ "" →
        py_split_once (py_strip l) = some (k, contents) →
        List.lookup (py_strip k) parser_map = some model_key →
        coerce_contents contents = .error e →
        parse_lines (l :: rest) acc =
          .error (e ++ ". Doesn\x27t match the requested output schema")) := by
  refine ⟨?_, ?_, ?_, ?_⟩
  · intro hb
    simp only [parse_lines]
    rw [if_pos hb]
  · intro hlookup
    by_cases hb : py_strip l = ""
    · simp only [parse_lines]
      rw [if_pos hb]
    · simp only [parse_lines]
      rw [if_neg hb, hlookup]
      rfl
  · intro hb hsome hsplit
    simp only [parse_lines]
    rw [if_neg hb]
    have hfalse : (List.lookup (py_strip (py_split_head (py_strip l)))
        parser_map).isNone = false := by
      rcases Option.isSome_iff_exists.mp hsome with ⟨v, hv⟩
      rw [hv]
      rfl
    rw [hfalse, if_neg Bool.false_ne_true, hsplit]
  · intro k contents model_key e hb hsplit hkey herr
    have hhead : py_split_head (py_strip l) = k := by
      unfold py_split_once at hsplit
      by_cases hc : (py_strip l).data.contains ':'
      · rw [if_pos hc] at hsplit
        have hpair := Option.some.inj hsplit
        exact congrArg Prod.fst hpair
      · rw [if_neg hc] at hsplit
        cases hsplit
    simp only [parse_lines]
    rw [if_neg hb, hhead, hkey, Option.isNone_some, if_neg Bool.false_ne_true]
    simp only [hsplit, hkey,
      add_to_result_of_coerce_error model_key contents acc e herr]

/-- Witness for parse_line_handling_spec: an unknown-key line is
skipped, a colon-less MESSAGE line raises without quoting itself, and
a SUSPECT_CONFIDENCE line whose value is the Unicode numeral for two
(isnumeric-true, int()-rejected) raises with the offending content in
the message. -/
theorem parse_line_handling_spec_witness :
    parse_lines ["FOO: bar"] [] = parse_lines [] []
    ∧ parse_lines ["MESSAGE"] [] =
        .error ("not enough values to unpack (expected 2, got 1). " ++
                "Doesn't match the requested output schema")
    ∧ parse_lines ["SUSPECT_CONFIDENCE: ²"] [] =
        .error ("invalid literal for int() with base 10: \x27²\x27" ++
                ". Doesn\x27t match the requested output schema") :=
  ⟨(parse_line_handling_spec "FOO: bar" [] []).2.1 rfl,
   (parse_line_handling_spec "MESSAGE" [] []).2.2.1 (by decide) rfl rfl,
   (parse_line_handling_spec "SUSPECT_CONFIDENCE: ²" [] []).2.2.2
     "SUSPECT_CONFIDENCE" " ²" "suspect_confidence"
     ("invalid literal for int() with base 10: \x27²\x27")
     (by decide) rfl rfl rfl⟩

/-- C10 (counterexample to the claim as stated): a later occurrence of
an already-recorded key is not always silently discarded — the source
coerces the value before the presence check, so a second
SUSPECT_CONFIDENCE line whose value is the Unicode numeral for two
makes int() raise and the whole parse abort, even though the key was
already bound by the first line. -/
theorem parse_duplicate_key_raises :
    parse "SUSPECT_CONFIDENCE: 5\nSUSPECT_CONFIDENCE: ²" =
      .error ("invalid literal for int() with base 10: \x27²\x27" ++
              ". Doesn\x27t match the requested output schema") := rfl

/-- C10 (amended): when a recognized key appears on several lines, the
recorded value is the one from the first such line and a later
occurrence never overwrites it; but each later occurrence is still
coerced before the presence check, so it raises whenever its own
coercion does (second conjunct), and only a later occurrence whose
coercion succeeds is silently discarded (first and third conjuncts);
concretely a response repeating MESSAGE keeps the first value. -/
theorem parse_first_occurrence_wins :
    (∀ key c r v, coerce_contents c = .ok v →
        (List.lookup key r).isSome = true → add_to_result key c r = .ok r)
    ∧ (∀ key c r e, coerce_contents c = .error e →
        add_to_result key c r = .error e)
    ∧ (∀ key c₁ c₂ r r₁ v₂, add_to_result key c₁ r = .ok r₁ →
        coerce_contents c₂ = .ok v₂ → add_to_result key c₂ r₁ = .ok r₁)
    ∧ parse "MESSAGE: a\nMESSAGE: b" = .ok [("message", PyValue.pystr "a")] := by
  refine ⟨?_, ?_, ?_, rfl⟩
  · intro key c r v hc h
    exact add_to_result_of_isSome key c r v hc h
  · intro key c r e hc
    exact add_to_result_of_coerce_error key c r e hc
  · intro key c₁ c₂ r r₁ v₂ h1 hok2
    unfold add_to_result at h1
    cases hc1 : coerce_contents c₁ with
    | error e =>
        rw [hc1] at h1
        cases h1
    | ok v₁ =>
        rw [hc1] at h1
        have hr₁ : r₁ = if (List.lookup key r).isSome = true then r
            else r ++ [(key, v₁)] := (Except.ok.inj h1).symm
        by_cases h : (List.lookup key r).isSome = true
        · rw [hr₁, if_pos h]
          exact add_to_result_of_isSome key c₂ r v₂ hok2 h
        · have hnone : List.lookup key r = none := by
            cases hl : List.lookup key r with
            | none => rfl
            | some v => rw [hl] at h; exact absurd rfl h
          rw [hr₁, if_neg h]
          refine add_to_result_of_isSome key c₂ _ v₂ hok2 ?_
          rw [lookup_append_self key v₁ r hnone]
          rfl

/-- Witness for parse_first_occurrence_wins: a concrete repeated
insertion whose coercion succeeds is discarded. -/
theorem parse_first_occurrence_wins_witness :
    add_to_result "message" " b" [("message", PyValue.pystr "a")] =
      .ok [("message", PyValue.pystr "a")] :=
  parse_first_occurrence_wins.1 "message" " b"
    [("message", PyValue.pystr "a")] (PyValue.pystr "b") rfl rfl

end AllmsSpec
